import Mathlib

/-!
# BootLoader.c : the native half of `org.openjdk.jigsaw.BootLoader.extendBootPath0`

The source file holds one function,
`Java_org_openjdk_jigsaw_BootLoader_extendBootPath0(JNIEnv *env, jclass cls, jstring path)`.
It calls four functions that live outside the file:

* `(*env)->GetStringUTFChars(env, path, NULL)`
* `JNU_ThrowOutOfMemoryError(env, NULL)`
* `JVM_ExtendBootClassPath(env, p)`
* `(*env)->ReleaseStringUTFChars(env, path, p)`

The embedding threads an explicit machine state `σ` through the function and takes
the four callees as parameters (`Host`): each is an arbitrary state transformer.
Nullable C pointers (`jstring path`, `const char *p`, the `isCopy` out pointer and the
message of the throw helper) are `Option`s, `none` standing for `NULL`.
The types of non-null `jstring` references and of non-null `const char *` buffers are
type parameters: the function never looks inside either.
-/

set_option linter.unusedVariables false

namespace BootLoader

/-- The address given as the `isCopy` out parameter of `GetStringUTFChars`. -/
abbrev JBooleanRef := Nat

/-- A `jclass` reference; the function receives one and never uses it. -/
abbrev jclass := Nat

/-- The callees of the function, as state transformers over a machine state `σ`.
`jstring` is the type of non-null string references, `chars` the type of non-null
`const char *` results. -/
structure Host (σ jstring chars : Type) where
  /-- The call `(*env)->GetStringUTFChars(env, str, isCopy)`: the buffer, or `none` for `NULL`. -/
  GetStringUTFChars : σ → jstring → Option JBooleanRef → Option chars × σ
  /-- The call `(*env)->ReleaseStringUTFChars(env, str, utf)`. -/
  ReleaseStringUTFChars : σ → jstring → chars → σ
  /-- The call `JNU_ThrowOutOfMemoryError(env, msg)`. -/
  JNU_ThrowOutOfMemoryError : σ → Option String → σ
  /-- The call `JVM_ExtendBootClassPath(env, path)`. -/
  JVM_ExtendBootClassPath : σ → chars → σ

/-- The function of BootLoader.c, lines 33 to 46. `path = none` is `path == NULL`;
the result is the machine state at return (the C function returns `void`). -/
def Java_org_openjdk_jigsaw_BootLoader_extendBootPath0 {σ jstring chars : Type}
    (env : Host σ jstring chars) (cls : jclass) (path : Option jstring) (s : σ) : σ :=
  match path with
  | none => s
  | some str =>
    match env.GetStringUTFChars s str none with
    | (none, s1) => env.JNU_ThrowOutOfMemoryError s1 none
    | (some p, s1) =>
      let s2 := env.JVM_ExtendBootClassPath s1 p
      env.ReleaseStringUTFChars s2 str p

/-! ## Recording what the function does

`traced env` is `env` with every call written down: the calls are appended to a
chronological trace, and the buffers handed out by successful conversions and not
yet released are kept in `live`. The underlying host only ever sees `vm`. -/

/-- One call made by the function into its host. -/
inductive Effect (jstring chars : Type) where
  | getStringUTFChars (str : jstring) (isCopy : Option JBooleanRef) (result : Option chars)
  | throwOutOfMemoryError (msg : Option String)
  | extendBootClassPath (p : chars)
  | releaseStringUTFChars (str : jstring) (p : chars)
deriving DecidableEq

/-- The machine state of the host together with the record of the calls made. -/
structure World (σ jstring chars : Type) where
  /-- The state of the underlying host. -/
  vm : σ
  /-- The calls made so far, oldest first. -/
  trace : List (Effect jstring chars)
  /-- The buffers acquired by a successful conversion and not released since. -/
  live : List (jstring × chars)

/-- The host `env`, recording each call. -/
def traced {σ jstring chars : Type} [DecidableEq jstring] [DecidableEq chars]
    (env : Host σ jstring chars) : Host (World σ jstring chars) jstring chars :=
  Host.mk
    (fun w str isCopy =>
      match env.GetStringUTFChars w.vm str isCopy with
      | (none, s1) =>
        (none, World.mk s1 (w.trace ++ [Effect.getStringUTFChars str isCopy none]) w.live)
      | (some p, s1) =>
        (some p, World.mk s1 (w.trace ++ [Effect.getStringUTFChars str isCopy (some p)])
          ((str, p) :: w.live)))
    (fun w str p =>
      World.mk (env.ReleaseStringUTFChars w.vm str p)
        (w.trace ++ [Effect.releaseStringUTFChars str p]) (w.live.erase (str, p)))
    (fun w msg =>
      World.mk (env.JNU_ThrowOutOfMemoryError w.vm msg)
        (w.trace ++ [Effect.throwOutOfMemoryError msg]) w.live)
    (fun w p =>
      World.mk (env.JVM_ExtendBootClassPath w.vm p)
        (w.trace ++ [Effect.extendBootClassPath p]) w.live)

/-- The effect trace of one call of the function from host state `s`. -/
def callTrace {σ jstring chars : Type} [DecidableEq jstring] [DecidableEq chars]
    (env : Host σ jstring chars) (cls : jclass) (path : Option jstring) (s : σ) :
    List (Effect jstring chars) :=
  (Java_org_openjdk_jigsaw_BootLoader_extendBootPath0 (traced env) cls path
    (World.mk s [] [])).trace

/-- A sequence of calls of the function, one per element of `paths`, in order. -/
def callSeq {σ jstring chars : Type}
    (env : Host σ jstring chars) (cls : jclass) (paths : List (Option jstring)) (s : σ) : σ :=
  paths.foldl (fun st path => Java_org_openjdk_jigsaw_BootLoader_extendBootPath0 env cls path st) s

/-- The effect trace of a sequence of calls of the function from host state `s`. -/
def seqTrace {σ jstring chars : Type} [DecidableEq jstring] [DecidableEq chars]
    (env : Host σ jstring chars) (cls : jclass) (paths : List (Option jstring)) (s : σ) :
    List (Effect jstring chars) :=
  (callSeq (traced env) cls paths (World.mk s [] [])).trace

/-- The arguments given to `JVM_ExtendBootClassPath` in a trace, in order. -/
def extendArgs {jstring chars : Type} : List (Effect jstring chars) → List chars
  | [] => []
  | Effect.extendBootClassPath p :: tr => p :: extendArgs tr
  | _ :: tr => extendArgs tr

/-- The conversions attempted in a trace, in order: the string and the result. -/
def conversions {jstring chars : Type} :
    List (Effect jstring chars) → List (jstring × Option chars)
  | [] => []
  | Effect.getStringUTFChars str _ r :: tr => (str, r) :: conversions tr
  | _ :: tr => conversions tr

/-- The successful conversions of a trace, in order: the string and the buffer. -/
def acquired {jstring chars : Type} : List (Effect jstring chars) → List (jstring × chars)
  | [] => []
  | Effect.getStringUTFChars str _ (some p) :: tr => (str, p) :: acquired tr
  | _ :: tr => acquired tr

/-- The releases performed in a trace, in order: the string and the buffer. -/
def releases {jstring chars : Type} : List (Effect jstring chars) → List (jstring × chars)
  | [] => []
  | Effect.releaseStringUTFChars str p :: tr => (str, p) :: releases tr
  | _ :: tr => releases tr

/-- The errors thrown in a trace, in order: the message given to the throw helper. -/
def throwsOf {jstring chars : Type} : List (Effect jstring chars) → List (Option String)
  | [] => []
  | Effect.throwOutOfMemoryError msg :: tr => msg :: throwsOf tr
  | _ :: tr => throwsOf tr

/-! ## A small concrete host

Used to run the function on concrete inputs. Strings and buffers are lists of
numbers; a conversion copies the string and appends the terminating zero. With
`heapLimited` set, a conversion takes one unit of `heapFree` and fails when none is
left; otherwise it always succeeds. -/

/-- The state of the concrete host. -/
structure SimVM where
  /-- The boot class path: the arguments received so far, oldest first. -/
  bootClassPath : List (List Nat)
  /-- Whether an out-of-memory error is pending. -/
  pendingOOM : Bool
  /-- How many further conversions can allocate. -/
  heapFree : Nat
deriving DecidableEq

/-- The concrete host. -/
def simHost (heapLimited : Bool) : Host SimVM (List Nat) (List Nat) :=
  Host.mk
    (fun s str _ =>
      if heapLimited then
        match s.heapFree with
        | 0 => (none, s)
        | n + 1 => (some (str ++ [0]), SimVM.mk s.bootClassPath s.pendingOOM n)
      else (some (str ++ [0]), s))
    (fun s _ _ => s)
    (fun s _ => SimVM.mk s.bootClassPath true s.heapFree)
    (fun s p => SimVM.mk (s.bootClassPath ++ [p]) s.pendingOOM s.heapFree)

/-- The string `/opt`, as character codes. -/
def optPath : List Nat := [47, 111, 112, 116]

/-- The string `/lib`, as character codes. -/
def libPath : List Nat := [47, 108, 105, 98]

/-- A concrete host state: empty boot class path, nothing pending, `heap` units left. -/
def vmWith (heap : Nat) : SimVM := SimVM.mk [] false heap

/-- A concrete recorded world: one call already in the trace and one buffer, acquired
elsewhere, still live. -/
def world0 : World SimVM (List Nat) (List Nat) :=
  World.mk (vmWith 0) [Effect.extendBootClassPath (libPath ++ [0])]
    [(libPath, libPath ++ [0])]

/-- A primitive that fails: it leaves an error pending and does not extend the path. -/
def failingPrim (s : SimVM) (p : List Nat) : SimVM := SimVM.mk s.bootClassPath true s.heapFree

/-! ## General facts about the recorded run -/

section
variable {σ jstring chars : Type} [DecidableEq jstring] [DecidableEq chars]

/-- The recorded run does to the host state what the plain run does. -/
theorem traced_vm (env : Host σ jstring chars) (cls : jclass) (path : Option jstring)
    (w : World σ jstring chars) :
    (Java_org_openjdk_jigsaw_BootLoader_extendBootPath0 (traced env) cls path w).vm
      = Java_org_openjdk_jigsaw_BootLoader_extendBootPath0 env cls path w.vm := by
  cases path with
  | none => rfl
  | some str =>
    simp only [Java_org_openjdk_jigsaw_BootLoader_extendBootPath0, traced]
    rcases h : env.GetStringUTFChars w.vm str none with ⟨_ | p, s1⟩ <;> simp [h]

/-- The trace after a call is the trace before it followed by the trace of the call. -/
theorem traced_trace (env : Host σ jstring chars) (cls : jclass) (path : Option jstring)
    (w : World σ jstring chars) :
    (Java_org_openjdk_jigsaw_BootLoader_extendBootPath0 (traced env) cls path w).trace
      = w.trace ++ callTrace env cls path w.vm := by
  cases path with
  | none => simp [callTrace, Java_org_openjdk_jigsaw_BootLoader_extendBootPath0]
  | some str =>
    simp only [callTrace, Java_org_openjdk_jigsaw_BootLoader_extendBootPath0, traced]
    rcases h : env.GetStringUTFChars w.vm str none with ⟨_ | p, s1⟩ <;> simp [h]

/-- A call leaves the list of live buffers as it found it. -/
theorem traced_live (env : Host σ jstring chars) (cls : jclass) (path : Option jstring)
    (w : World σ jstring chars) :
    (Java_org_openjdk_jigsaw_BootLoader_extendBootPath0 (traced env) cls path w).live
      = w.live := by
  cases path with
  | none => rfl
  | some str =>
    simp only [Java_org_openjdk_jigsaw_BootLoader_extendBootPath0, traced]
    rcases h : env.GetStringUTFChars w.vm str none with ⟨_ | p, s1⟩ <;> simp [h]

/-- The trace of a call whose conversion succeeds. -/
theorem callTrace_of_success (env : Host σ jstring chars) (cls : jclass) (str : jstring)
    (s s1 : σ) (b : chars) (hconv : env.GetStringUTFChars s str none = (some b, s1)) :
    callTrace env cls (some str) s
      = [Effect.getStringUTFChars str none (some b), Effect.extendBootClassPath b,
          Effect.releaseStringUTFChars str b] := by
  simp [callTrace, Java_org_openjdk_jigsaw_BootLoader_extendBootPath0, traced, hconv]

/-- The trace of a call whose conversion fails. -/
theorem callTrace_of_failure (env : Host σ jstring chars) (cls : jclass) (str : jstring)
    (s s1 : σ) (hconv : env.GetStringUTFChars s str none = (none, s1)) :
    callTrace env cls (some str) s
      = [Effect.getStringUTFChars str none none, Effect.throwOutOfMemoryError none] := by
  simp [callTrace, Java_org_openjdk_jigsaw_BootLoader_extendBootPath0, traced, hconv]

/-- The trace of a call, by the outcome of its conversion. -/
theorem callTrace_some (env : Host σ jstring chars) (cls : jclass) (str : jstring) (s : σ) :
    callTrace env cls (some str) s
      = match (env.GetStringUTFChars s str none).1 with
        | none => [Effect.getStringUTFChars str none none, Effect.throwOutOfMemoryError none]
        | some b => [Effect.getStringUTFChars str none (some b), Effect.extendBootClassPath b,
            Effect.releaseStringUTFChars str b] := by
  rcases h : env.GetStringUTFChars s str none with ⟨_ | b, s1⟩
  · rw [callTrace_of_failure env cls str s s1 h]
  · rw [callTrace_of_success env cls str s s1 b h]

/-- The recorded run of a sequence of calls does to the host state what the plain
sequence does. -/
theorem callSeq_traced_vm (env : Host σ jstring chars) (cls : jclass)
    (paths : List (Option jstring)) (w : World σ jstring chars) :
    (callSeq (traced env) cls paths w).vm = callSeq env cls paths w.vm := by
  induction paths generalizing w with
  | nil => rfl
  | cons path rest ih =>
    simp only [callSeq, List.foldl_cons] at ih ⊢
    rw [ih, traced_vm]

/-- A sequence of calls leaves the list of live buffers as it found it. -/
theorem callSeq_traced_live (env : Host σ jstring chars) (cls : jclass)
    (paths : List (Option jstring)) (w : World σ jstring chars) :
    (callSeq (traced env) cls paths w).live = w.live := by
  induction paths generalizing w with
  | nil => rfl
  | cons path rest ih =>
    simp only [callSeq, List.foldl_cons] at ih ⊢
    rw [ih, traced_live]

/-- The trace after a sequence of calls is the trace before it followed by the trace
of the sequence. -/
theorem callSeq_traced_trace (env : Host σ jstring chars) (cls : jclass)
    (paths : List (Option jstring)) (w : World σ jstring chars) :
    (callSeq (traced env) cls paths w).trace = w.trace ++ seqTrace env cls paths w.vm := by
  induction paths generalizing w with
  | nil => simp [callSeq, seqTrace]
  | cons path rest ih =>
    have h1 := ih (Java_org_openjdk_jigsaw_BootLoader_extendBootPath0 (traced env) cls path w)
    have h2 := ih (Java_org_openjdk_jigsaw_BootLoader_extendBootPath0 (traced env) cls path
      (World.mk w.vm [] []))
    simp only [callSeq, seqTrace, List.foldl_cons] at h1 h2 ⊢
    rw [h1, h2, traced_trace, traced_trace, traced_vm, traced_vm]
    simp

/-- The trace of a sequence of calls is the trace of the first call followed by the
trace of the rest, run from the state the first call leaves. -/
theorem seqTrace_cons (env : Host σ jstring chars) (cls : jclass) (path : Option jstring)
    (rest : List (Option jstring)) (s : σ) :
    seqTrace env cls (path :: rest) s
      = callTrace env cls path s
        ++ seqTrace env cls rest
            (Java_org_openjdk_jigsaw_BootLoader_extendBootPath0 env cls path s) := by
  have h := callSeq_traced_trace env cls rest
    (Java_org_openjdk_jigsaw_BootLoader_extendBootPath0 (traced env) cls path
      (World.mk s [] []))
  rw [traced_vm] at h
  simpa [seqTrace, callSeq, callTrace] using h

/-- The trace of no call at all is empty. -/
theorem seqTrace_nil (env : Host σ jstring chars) (cls : jclass) (s : σ) :
    seqTrace env cls [] s = [] := rfl

end

/-- The conversions of two traces put end to end. -/
theorem conversions_append {jstring chars : Type} (t1 t2 : List (Effect jstring chars)) :
    conversions (t1 ++ t2) = conversions t1 ++ conversions t2 := by
  induction t1 with
  | nil => rfl
  | cons e rest ih => cases e <;> simp [conversions, ih]

/-- The arguments of the primitive in two traces put end to end. -/
theorem extendArgs_append {jstring chars : Type} (t1 t2 : List (Effect jstring chars)) :
    extendArgs (t1 ++ t2) = extendArgs t1 ++ extendArgs t2 := by
  induction t1 with
  | nil => rfl
  | cons e rest ih => cases e <;> simp [extendArgs, ih]

/-! ## The claims -/

section
variable {σ jstring chars : Type} [DecidableEq jstring] [DecidableEq chars]

/-- C1: with a null path the function returns the state it was given, for every host
and every state; run on the recording host, the trace of the call is empty (no
conversion, no throw, no call of `JVM_ExtendBootClassPath`, no release) and the
recorded world (host state, trace, live buffers) is unchanged. -/
theorem C1_null_path_no_effect (env : Host σ jstring chars) (cls : jclass) (s : σ)
    (w : World σ jstring chars) :
    Java_org_openjdk_jigsaw_BootLoader_extendBootPath0 env cls none s = s
    ∧ callTrace env cls none s = []
    ∧ Java_org_openjdk_jigsaw_BootLoader_extendBootPath0 (traced env) cls none w = w := by
  refine ⟨rfl, rfl, rfl⟩

/-- C2: for a non-null path whose conversion succeeds with buffer `b`, the trace of the
call is exactly the conversion, then `JVM_ExtendBootClassPath` on `b`, then the
release of `b`: one invocation of the primitive with the buffer as converted, one
release after it, and no error thrown. -/
theorem C2_success_trace (env : Host σ jstring chars) (cls : jclass) (str : jstring)
    (s s1 : σ) (b : chars) (hconv : env.GetStringUTFChars s str none = (some b, s1)) :
    callTrace env cls (some str) s
      = [Effect.getStringUTFChars str none (some b), Effect.extendBootClassPath b,
          Effect.releaseStringUTFChars str b]
    ∧ extendArgs (callTrace env cls (some str) s) = [b]
    ∧ releases (callTrace env cls (some str) s) = [(str, b)]
    ∧ throwsOf (callTrace env cls (some str) s) = [] := by
  rw [callTrace_of_success env cls str s s1 b hconv]
  exact ⟨rfl, rfl, rfl, rfl⟩

/-- C3: for a non-null path whose conversion fails, the call never invokes
`JVM_ExtendBootClassPath`, throws the out-of-memory error once, performs no release,
leaves the list of live buffers as it was, and returns the state left by the throw. -/
theorem C3_conversion_failure (env : Host σ jstring chars) (cls : jclass) (str : jstring)
    (w : World σ jstring chars) (s1 : σ)
    (hconv : env.GetStringUTFChars w.vm str none = (none, s1)) :
    extendArgs (callTrace env cls (some str) w.vm) = []
    ∧ throwsOf (callTrace env cls (some str) w.vm) = [none]
    ∧ releases (callTrace env cls (some str) w.vm) = []
    ∧ (Java_org_openjdk_jigsaw_BootLoader_extendBootPath0 (traced env) cls (some str) w).live
        = w.live
    ∧ Java_org_openjdk_jigsaw_BootLoader_extendBootPath0 env cls (some str) w.vm
        = env.JNU_ThrowOutOfMemoryError s1 none := by
  rw [callTrace_of_failure env cls str w.vm s1 hconv]
  refine ⟨rfl, rfl, rfl, traced_live env cls (some str) w, ?_⟩
  simp [Java_org_openjdk_jigsaw_BootLoader_extendBootPath0, hconv]

/-- C4: for every host (so every outcome of the conversion and of the primitive),
every path and every state, the call throws if and only if the path is non-null and
its conversion fails; what it throws is then the out-of-memory error, once; and for a
non-null path exactly one of two things happens: the primitive is invoked exactly
once and nothing is thrown, or the out-of-memory error is thrown and the primitive
is not invoked. -/
theorem C4_single_error_condition (env : Host σ jstring chars) (cls : jclass)
    (path : Option jstring) (s : σ) :
    (throwsOf (callTrace env cls path s) ≠ []
        ↔ ∃ str, path = some str ∧ (env.GetStringUTFChars s str none).1 = none)
    ∧ (throwsOf (callTrace env cls path s) = []
        ∨ throwsOf (callTrace env cls path s) = [none])
    ∧ ∀ str, path = some str →
        (((extendArgs (callTrace env cls path s)).length = 1
            ∧ throwsOf (callTrace env cls path s) = [])
          ∨ (extendArgs (callTrace env cls path s) = []
            ∧ throwsOf (callTrace env cls path s) = [none]))
        ∧ ¬ ((extendArgs (callTrace env cls path s)).length = 1
            ∧ throwsOf (callTrace env cls path s) = [none]) := by
  cases path with
  | none =>
    refine ⟨?_, Or.inl rfl, ?_⟩
    · simp [callTrace, Java_org_openjdk_jigsaw_BootLoader_extendBootPath0, throwsOf]
    · intro str h
      cases h
  | some str =>
    rcases h : env.GetStringUTFChars s str none with ⟨_ | b, s1⟩
    · rw [callTrace_of_failure env cls str s s1 h]
      refine ⟨?_, Or.inr rfl, ?_⟩
      · simp [throwsOf, h]
      · intro str2 _
        simp [throwsOf, extendArgs]
    · rw [callTrace_of_success env cls str s s1 b h]
      refine ⟨?_, Or.inl rfl, ?_⟩
      · simp [throwsOf, h]
      · intro str2 _
        simp [throwsOf, extendArgs]

/-- C5: for a non-null path whose conversion succeeds, and for every primitive `prim`
put in the place of `JVM_ExtendBootClassPath` (an arbitrary state transformer), the
state at return is the state left by the primitive with the release applied to it and
nothing else; the trace is conversion, primitive, release, so the buffer is released
exactly once, after the primitive, and nothing is thrown. -/
theorem C5_release_after_any_primitive (env : Host σ jstring chars) (prim : σ → chars → σ)
    (cls : jclass) (str : jstring) (s s1 : σ) (b : chars)
    (hconv : env.GetStringUTFChars s str none = (some b, s1)) :
    Java_org_openjdk_jigsaw_BootLoader_extendBootPath0
        (Host.mk env.GetStringUTFChars env.ReleaseStringUTFChars
          env.JNU_ThrowOutOfMemoryError prim) cls (some str) s
      = env.ReleaseStringUTFChars (prim s1 b) str b
    ∧ callTrace (Host.mk env.GetStringUTFChars env.ReleaseStringUTFChars
          env.JNU_ThrowOutOfMemoryError prim) cls (some str) s
      = [Effect.getStringUTFChars str none (some b), Effect.extendBootClassPath b,
          Effect.releaseStringUTFChars str b]
    ∧ releases (callTrace (Host.mk env.GetStringUTFChars env.ReleaseStringUTFChars
          env.JNU_ThrowOutOfMemoryError prim) cls (some str) s) = [(str, b)]
    ∧ throwsOf (callTrace (Host.mk env.GetStringUTFChars env.ReleaseStringUTFChars
          env.JNU_ThrowOutOfMemoryError prim) cls (some str) s) = [] := by
  have ht := callTrace_of_success (Host.mk env.GetStringUTFChars env.ReleaseStringUTFChars
    env.JNU_ThrowOutOfMemoryError prim) cls str s s1 b hconv
  rw [ht]
  refine ⟨?_, rfl, rfl, rfl⟩
  simp [Java_org_openjdk_jigsaw_BootLoader_extendBootPath0, hconv]

/-- C6: take a sequence of calls in which every conversion performed succeeds,
`enc str` being the buffer the conversion of `str` yields. Then the arguments
received by `JVM_ExtendBootClassPath` are the encodings of the non-null paths of the
sequence, in the same order; the conversions are those of the non-null paths, one
each; the trace of the sequence is, for each non-null path in turn, conversion,
primitive, release, so each buffer is released before the next conversion begins;
when the sequence is `p1` then `p2` there are exactly two invocations, `enc p1` then
`enc p2`; and after any number of the calls the list of live buffers is what it was
before the first. -/
theorem C6_call_sequence_order (env : Host σ jstring chars) (enc : jstring → chars)
    (cls : jclass) (paths : List (Option jstring)) (s : σ) (w : World σ jstring chars)
    (hok : ∀ c ∈ conversions (seqTrace env cls paths s), c.2 = some (enc c.1)) :
    extendArgs (seqTrace env cls paths s) = paths.reduceOption.map enc
    ∧ conversions (seqTrace env cls paths s)
        = paths.reduceOption.map (fun str => (str, some (enc str)))
    ∧ seqTrace env cls paths s
        = paths.reduceOption.flatMap (fun str =>
            [Effect.getStringUTFChars str none (some (enc str)),
              Effect.extendBootClassPath (enc str),
              Effect.releaseStringUTFChars str (enc str)])
    ∧ (∀ p1 p2, paths = [some p1, some p2] →
        seqTrace env cls paths s
          = [Effect.getStringUTFChars p1 none (some (enc p1)),
              Effect.extendBootClassPath (enc p1),
              Effect.releaseStringUTFChars p1 (enc p1),
              Effect.getStringUTFChars p2 none (some (enc p2)),
              Effect.extendBootClassPath (enc p2),
              Effect.releaseStringUTFChars p2 (enc p2)]
        ∧ extendArgs (seqTrace env cls paths s) = [enc p1, enc p2])
    ∧ ∀ k, (callSeq (traced env) cls (paths.take k) w).live = w.live := by
  have hall : ∀ (ps : List (Option jstring)) (st : σ),
      (∀ c ∈ conversions (seqTrace env cls ps st), c.2 = some (enc c.1)) →
      seqTrace env cls ps st
        = ps.reduceOption.flatMap (fun str =>
            [Effect.getStringUTFChars str none (some (enc str)),
              Effect.extendBootClassPath (enc str),
              Effect.releaseStringUTFChars str (enc str)]) := by
    intro ps
    induction ps with
    | nil => intro st _; rfl
    | cons path rest ih =>
      intro st hc
      rw [seqTrace_cons, conversions_append] at hc
      rw [seqTrace_cons]
      have hrest := ih (Java_org_openjdk_jigsaw_BootLoader_extendBootPath0 env cls path st)
        (fun c hmem => hc c (List.mem_append_right _ hmem))
      rw [hrest]
      cases path with
      | none => simp [callTrace, Java_org_openjdk_jigsaw_BootLoader_extendBootPath0]
      | some str =>
        have hhead : ∀ c ∈ conversions (callTrace env cls (some str) st),
            c.2 = some (enc c.1) := fun c hmem => hc c (List.mem_append_left _ hmem)
        rw [callTrace_some] at hhead ⊢
        rcases h : (env.GetStringUTFChars st str none).1 with _ | b
        · rw [h] at hhead
          have hbad := hhead (str, none) (by simp [conversions])
          cases hbad
        · rw [h] at hhead
          have hb := hhead (str, some b) (by simp [conversions])
          simp only [Option.some.injEq] at hb
          subst hb
          simp [List.reduceOption_cons_of_some]
  have hargs : ∀ (l : List jstring),
      extendArgs (l.flatMap (fun str =>
          [Effect.getStringUTFChars str none (some (enc str)),
            Effect.extendBootClassPath (enc str),
            Effect.releaseStringUTFChars str (enc str)])) = l.map enc := by
    intro l
    induction l with
    | nil => rfl
    | cons a rest ih =>
      rw [List.flatMap_cons, extendArgs_append, ih]
      rfl
  have hconvs : ∀ (l : List jstring),
      conversions (l.flatMap (fun str =>
          [Effect.getStringUTFChars str none (some (enc str)),
            Effect.extendBootClassPath (enc str),
            Effect.releaseStringUTFChars str (enc str)]))
        = l.map (fun str => (str, some (enc str))) := by
    intro l
    induction l with
    | nil => rfl
    | cons a rest ih =>
      rw [List.flatMap_cons, conversions_append, ih]
      rfl
  have htr := hall paths s hok
  refine ⟨?_, ?_, htr, ?_, ?_⟩
  · rw [htr, hargs]
  · rw [htr, hconvs]
  · intro p1 p2 hp
    rw [htr, hp]
    exact ⟨rfl, rfl⟩
  · intro k
    exact callSeq_traced_live env cls (paths.take k) w

/-- C7: when the conversion of `str` succeeds with buffer `b` in the first call and
again in the second, two calls with `str` invoke `JVM_ExtendBootClassPath` exactly
twice, both times with `b`; the trace of the two calls is the trace of one call
repeated; and the primitive invocations of two calls are not those of one call. -/
theorem C7_no_deduplication (env : Host σ jstring chars) (cls : jclass) (str : jstring)
    (s : σ) (b : chars)
    (h1 : (env.GetStringUTFChars s str none).1 = some b)
    (h2 : (env.GetStringUTFChars
        (Java_org_openjdk_jigsaw_BootLoader_extendBootPath0 env cls (some str) s)
        str none).1 = some b) :
    extendArgs (seqTrace env cls [some str, some str] s) = [b, b]
    ∧ seqTrace env cls [some str, some str] s
        = callTrace env cls (some str) s ++ callTrace env cls (some str) s
    ∧ seqTrace env cls [some str, some str] s
        = [Effect.getStringUTFChars str none (some b), Effect.extendBootClassPath b,
            Effect.releaseStringUTFChars str b,
            Effect.getStringUTFChars str none (some b), Effect.extendBootClassPath b,
            Effect.releaseStringUTFChars str b]
    ∧ extendArgs (seqTrace env cls [some str, some str] s)
        ≠ extendArgs (seqTrace env cls [some str] s) := by
  have e1 : callTrace env cls (some str) s
      = [Effect.getStringUTFChars str none (some b), Effect.extendBootClassPath b,
          Effect.releaseStringUTFChars str b] := by
    rw [callTrace_some, h1]
  have e2 : callTrace env cls (some str)
        (Java_org_openjdk_jigsaw_BootLoader_extendBootPath0 env cls (some str) s)
      = [Effect.getStringUTFChars str none (some b), Effect.extendBootClassPath b,
          Effect.releaseStringUTFChars str b] := by
    rw [callTrace_some, h2]
  have t2 : seqTrace env cls [some str, some str] s
      = [Effect.getStringUTFChars str none (some b), Effect.extendBootClassPath b,
          Effect.releaseStringUTFChars str b,
          Effect.getStringUTFChars str none (some b), Effect.extendBootClassPath b,
          Effect.releaseStringUTFChars str b] := by
    rw [seqTrace_cons, seqTrace_cons, seqTrace_nil, e1, e2]
    rfl
  have t1 : seqTrace env cls [some str] s
      = [Effect.getStringUTFChars str none (some b), Effect.extendBootClassPath b,
          Effect.releaseStringUTFChars str b] := by
    rw [seqTrace_cons, seqTrace_nil, e1]
    rfl
  rw [t2, t1, e1]
  refine ⟨rfl, rfl, rfl, ?_⟩
  simp [extendArgs]

/-- C8: in every call, for every host, path and state, the releases performed are
exactly the successful conversions performed: none and none for a null path, none and
none when the conversion fails, the one buffer and the same buffer when it succeeds;
and the list of live buffers after the call is the list before it. -/
theorem C8_buffer_balance (env : Host σ jstring chars) (cls : jclass)
    (path : Option jstring) (s : σ) (w : World σ jstring chars) :
    releases (callTrace env cls path s) = acquired (callTrace env cls path s)
    ∧ (releases (callTrace env cls path s)).length
        = (acquired (callTrace env cls path s)).length
    ∧ (match path with
        | none => releases (callTrace env cls path s) = []
            ∧ acquired (callTrace env cls path s) = []
        | some str =>
          match (env.GetStringUTFChars s str none).1 with
          | none => releases (callTrace env cls path s) = []
              ∧ acquired (callTrace env cls path s) = []
          | some b => releases (callTrace env cls path s) = [(str, b)]
              ∧ acquired (callTrace env cls path s) = [(str, b)])
    ∧ (Java_org_openjdk_jigsaw_BootLoader_extendBootPath0 (traced env) cls path w).live
        = w.live := by
  refine ⟨?_, ?_, ?_, traced_live env cls path w⟩
  all_goals
    cases path with
    | none => simp [callTrace, Java_org_openjdk_jigsaw_BootLoader_extendBootPath0,
        releases, acquired]
    | some str =>
      rw [callTrace_some]
      rcases h : (env.GetStringUTFChars s str none).1 with _ | b <;>
        simp [releases, acquired, h]

/-- C9: in every call the conversion is attempted exactly once when the path is
non-null, whatever its outcome, and never when the path is null; the trace of a call
with a non-null path is the failed conversion followed by one throw of the
out-of-memory error and nothing else when the conversion fails, and conversion,
primitive, release when it succeeds: no second conversion in either case. -/
theorem C9_conversion_not_retried (env : Host σ jstring chars) (cls : jclass)
    (str : jstring) (s : σ) :
    conversions (callTrace env cls none s) = []
    ∧ conversions (callTrace env cls (some str) s)
        = [(str, (env.GetStringUTFChars s str none).1)]
    ∧ callTrace env cls (some str) s
        = (match (env.GetStringUTFChars s str none).1 with
          | none => [Effect.getStringUTFChars str none none,
              Effect.throwOutOfMemoryError none]
          | some b => [Effect.getStringUTFChars str none (some b),
              Effect.extendBootClassPath b, Effect.releaseStringUTFChars str b]) := by
  refine ⟨rfl, ?_, callTrace_some env cls str s⟩
  rw [callTrace_some]
  rcases h : (env.GetStringUTFChars s str none).1 with _ | b <;> simp [conversions]

/-- C10: if a call releases buffer `p` for string `str`, then `str` is the path of the
call, `p` is the buffer the conversion of `str` returned in this call, and the trace
of the call is that conversion, `JVM_ExtendBootClassPath` on `p`, and the release:
the release is given the string and the buffer of this call's own conversion. -/
theorem C10_release_what_was_acquired (env : Host σ jstring chars) (cls : jclass)
    (path : Option jstring) (s : σ) (str : jstring) (p : chars)
    (hrel : Effect.releaseStringUTFChars str p ∈ callTrace env cls path s) :
    path = some str
    ∧ (env.GetStringUTFChars s str none).1 = some p
    ∧ callTrace env cls path s
        = [Effect.getStringUTFChars str none (some p), Effect.extendBootClassPath p,
            Effect.releaseStringUTFChars str p]
    ∧ (str, p) ∈ acquired (callTrace env cls path s) := by
  cases path with
  | none => simp [callTrace, Java_org_openjdk_jigsaw_BootLoader_extendBootPath0] at hrel
  | some str2 =>
    rw [callTrace_some] at hrel ⊢
    rcases h : (env.GetStringUTFChars s str2 none).1 with _ | b
    · rw [h] at hrel
      simp at hrel
    · rw [h] at hrel
      simp at hrel
      obtain ⟨rfl, rfl⟩ := hrel
      simp [h, acquired]

end

/-! ## The claims on concrete inputs -/

/-- C2 on the concrete host: `/opt` is converted, forwarded and released. -/
theorem C2_success_trace_witness :
    (simHost false).GetStringUTFChars (vmWith 0) optPath none
      = (some (optPath ++ [0]), vmWith 0)
    ∧ (callTrace (simHost false) 0 (some optPath) (vmWith 0)
        = [Effect.getStringUTFChars optPath none (some (optPath ++ [0])),
            Effect.extendBootClassPath (optPath ++ [0]),
            Effect.releaseStringUTFChars optPath (optPath ++ [0])]
      ∧ extendArgs (callTrace (simHost false) 0 (some optPath) (vmWith 0))
          = [optPath ++ [0]]
      ∧ releases (callTrace (simHost false) 0 (some optPath) (vmWith 0))
          = [(optPath, optPath ++ [0])]
      ∧ throwsOf (callTrace (simHost false) 0 (some optPath) (vmWith 0)) = []) :=
  ⟨rfl, C2_success_trace (simHost false) 0 optPath (vmWith 0) (vmWith 0) (optPath ++ [0]) rfl⟩

/-- C3 on the concrete host with no heap left: the conversion of `/opt` fails. -/
theorem C3_conversion_failure_witness :
    (simHost true).GetStringUTFChars world0.vm optPath none
      = (none, vmWith 0)
    ∧ (extendArgs (callTrace (simHost true) 0 (some optPath) world0.vm)
          = []
      ∧ throwsOf (callTrace (simHost true) 0 (some optPath) world0.vm)
          = [none]
      ∧ releases (callTrace (simHost true) 0 (some optPath) world0.vm)
          = []
      ∧ (Java_org_openjdk_jigsaw_BootLoader_extendBootPath0 (traced (simHost true)) 0
          (some optPath) world0).live
          = world0.live
      ∧ Java_org_openjdk_jigsaw_BootLoader_extendBootPath0 (simHost true) 0 (some optPath)
          world0.vm
          = (simHost true).JNU_ThrowOutOfMemoryError (vmWith 0) none) :=
  ⟨rfl, C3_conversion_failure (simHost true) 0 optPath world0
    (vmWith 0) rfl⟩

/-- C4 on the concrete host with no heap left: the call throws, once, and does not
invoke the primitive. -/
theorem C4_single_error_condition_witness :
    throwsOf (callTrace (simHost true) 0 (some optPath) (vmWith 0)) = [none]
    ∧ extendArgs (callTrace (simHost true) 0 (some optPath) (vmWith 0)) = [] := by
  have h := C4_single_error_condition (simHost true) 0 (some optPath) (vmWith 0)
  rcases (h.2.2 optPath rfl).1 with hok | hfail
  · exact absurd hok.2 (h.1.mpr ⟨optPath, rfl, rfl⟩)
  · exact ⟨hfail.2, hfail.1⟩

/-- C5 on the concrete host with a primitive that fails: the buffer is released all
the same and the pending error left by the primitive is still there at return. -/
theorem C5_release_after_any_primitive_witness :
    (simHost false).GetStringUTFChars (vmWith 0) optPath none
      = (some (optPath ++ [0]), vmWith 0)
    ∧ (Java_org_openjdk_jigsaw_BootLoader_extendBootPath0
          (Host.mk (simHost false).GetStringUTFChars (simHost false).ReleaseStringUTFChars
            (simHost false).JNU_ThrowOutOfMemoryError failingPrim) 0 (some optPath) (vmWith 0)
        = (simHost false).ReleaseStringUTFChars (failingPrim (vmWith 0) (optPath ++ [0]))
            optPath (optPath ++ [0])
      ∧ callTrace (Host.mk (simHost false).GetStringUTFChars
            (simHost false).ReleaseStringUTFChars
            (simHost false).JNU_ThrowOutOfMemoryError failingPrim) 0 (some optPath) (vmWith 0)
        = [Effect.getStringUTFChars optPath none (some (optPath ++ [0])),
            Effect.extendBootClassPath (optPath ++ [0]),
            Effect.releaseStringUTFChars optPath (optPath ++ [0])]
      ∧ releases (callTrace (Host.mk (simHost false).GetStringUTFChars
            (simHost false).ReleaseStringUTFChars
            (simHost false).JNU_ThrowOutOfMemoryError failingPrim) 0 (some optPath) (vmWith 0))
        = [(optPath, optPath ++ [0])]
      ∧ throwsOf (callTrace (Host.mk (simHost false).GetStringUTFChars
            (simHost false).ReleaseStringUTFChars
            (simHost false).JNU_ThrowOutOfMemoryError failingPrim) 0 (some optPath) (vmWith 0))
        = []) :=
  ⟨rfl, C5_release_after_any_primitive (simHost false) failingPrim 0 optPath (vmWith 0)
    (vmWith 0) (optPath ++ [0]) rfl⟩

/-- C6 on the concrete host with two units of heap: `/opt`, a null path, then `/lib`;
both conversions succeed. -/
theorem C6_call_sequence_order_witness :
    (∀ c ∈ conversions (seqTrace (simHost true) 0 [some optPath, none, some libPath]
        (vmWith 2)), c.2 = some (c.1 ++ [0]))
    ∧ extendArgs (seqTrace (simHost true) 0 [some optPath, none, some libPath] (vmWith 2))
        = [optPath ++ [0], libPath ++ [0]]
    ∧ seqTrace (simHost true) 0 [some optPath, none, some libPath] (vmWith 2)
        = [Effect.getStringUTFChars optPath none (some (optPath ++ [0])),
            Effect.extendBootClassPath (optPath ++ [0]),
            Effect.releaseStringUTFChars optPath (optPath ++ [0]),
            Effect.getStringUTFChars libPath none (some (libPath ++ [0])),
            Effect.extendBootClassPath (libPath ++ [0]),
            Effect.releaseStringUTFChars libPath (libPath ++ [0])]
    ∧ (callSeq (traced (simHost true)) 0
          ([some optPath, none, some libPath].take 1) world0).live
        = world0.live :=
  have hok : ∀ c ∈ conversions (seqTrace (simHost true) 0 [some optPath, none, some libPath]
      (vmWith 2)), c.2 = some (c.1 ++ [0]) := by decide
  have h := C6_call_sequence_order (simHost true) (fun str => str ++ [0]) 0
    [some optPath, none, some libPath] (vmWith 2) world0 hok
  ⟨hok, h.1, h.2.2.1, h.2.2.2.2 1⟩

/-- C7 on the concrete host with two units of heap: `/opt` twice is forwarded twice. -/
theorem C7_no_deduplication_witness :
    ((simHost true).GetStringUTFChars (vmWith 2) optPath none).1 = some (optPath ++ [0])
    ∧ ((simHost true).GetStringUTFChars
        (Java_org_openjdk_jigsaw_BootLoader_extendBootPath0 (simHost true) 0 (some optPath)
          (vmWith 2)) optPath none).1 = some (optPath ++ [0])
    ∧ extendArgs (seqTrace (simHost true) 0 [some optPath, some optPath] (vmWith 2))
        = [optPath ++ [0], optPath ++ [0]]
    ∧ extendArgs (seqTrace (simHost true) 0 [some optPath, some optPath] (vmWith 2))
        ≠ extendArgs (seqTrace (simHost true) 0 [some optPath] (vmWith 2)) :=
  have h := C7_no_deduplication (simHost true) 0 optPath (vmWith 2) (optPath ++ [0]) rfl rfl
  ⟨rfl, rfl, h.1, h.2.2.2⟩

/-- C10 on the concrete host: the release seen in the trace of a call with `/opt` is
the release of the buffer converted from `/opt` in that call. -/
theorem C10_release_what_was_acquired_witness :
    Effect.releaseStringUTFChars optPath (optPath ++ [0])
      ∈ callTrace (simHost false) 0 (some optPath) (vmWith 0)
    ∧ ((simHost false).GetStringUTFChars (vmWith 0) optPath none).1 = some (optPath ++ [0])
    ∧ (optPath, optPath ++ [0])
      ∈ acquired (callTrace (simHost false) 0 (some optPath) (vmWith 0)) :=
  have hrel : Effect.releaseStringUTFChars optPath (optPath ++ [0])
      ∈ callTrace (simHost false) 0 (some optPath) (vmWith 0) := by decide
  have h := C10_release_what_was_acquired (simHost false) 0 (some optPath) (vmWith 0)
    optPath (optPath ++ [0]) hrel
  ⟨hrel, h.2.1, h.2.2.2⟩

end BootLoader
